import Mathlib

/-
Shallow embedding of go/vt/worker/instance.go (vtworker single-flight job
supervisor) and verification of its specification.

Modelling conventions:
- Go pointer identity and fresh allocation (loggers, contexts, channels,
  wranglers) are modelled by a monotone allocation counter threaded through
  the operations; a freshly allocated object carries the current counter
  value as its id.
- A Go error interface value is an Option: none is the nil error.
- The mutex and the worker goroutine are modelled by an explicit event
  trace for the goroutine body and by a step relation (Reachable) over a
  machine state that records the Instance fields together with whether a
  spawned goroutine is still pending.
-/

namespace VtWorker

/-- Go time.Duration, an int64 count of nanoseconds. -/
abbrev Duration := Int

/-- topo.Server (external collaborator), abstracted to an opaque id. -/
abbrev TopoServer := Nat

/-- tmclient.TabletManagerClient (external collaborator), abstracted. -/
abbrev TabletManagerClient := Nat

/-- A context.CancelFunc, identified by the id of the context it cancels. -/
abbrev CancelFunc := Nat

/-- A logutil.Logger value. Memory and console loggers carry their
allocation id (Go pointer identity); custom covers any caller-supplied
logger; tee is the dual-destination logger built by NewTeeLogger. -/
inductive Logger where
  | console (id : Nat)
  | memory (id : Nat)
  | tee (first second : Logger)
  | custom (id : Nat)
deriving DecidableEq, Repr

/-- A context.Context value: Background, or a cancellable child created by
WithCancel, carrying its allocation id. -/
inductive Ctx where
  | background
  | withCancel (parent : Ctx) (id : Nat)
deriving DecidableEq, Repr

/-- wrangler.Wrangler (external collaborator): id models Go pointer
identity; the remaining fields store the arguments of wrangler.New, with
SetLogger mutating the logger field. -/
structure Wrangler where
  id : Nat
  logger : Logger
  ts : TopoServer
  tmc : TabletManagerClient
  lockTimeout : Duration
deriving DecidableEq, Repr

/-- logutil.NewMemoryLogger: allocates a fresh memory logger, returning its
id and the advanced allocation counter. -/
def logutil.NewMemoryLogger (a : Nat) : Nat × Nat := (a, a + 1)

/-- logutil.NewConsoleLogger: allocates a fresh console logger. -/
def logutil.NewConsoleLogger (a : Nat) : Logger × Nat := (Logger.console a, a + 1)

/-- logutil.NewTeeLogger: duplicates output to both argument loggers. -/
def logutil.NewTeeLogger (first second : Logger) : Logger := Logger.tee first second

/-- context.Background. -/
def context.Background : Ctx := Ctx.background

/-- context.WithCancel: derives a cancellable child context from the parent
and returns it with its cancel function, plus the advanced counter. -/
def context.WithCancel (parent : Ctx) (a : Nat) : (Ctx × CancelFunc) × Nat :=
  ((Ctx.withCancel parent a, a), a + 1)

/-- tmclient.NewTabletManagerClient. -/
def tmclient.NewTabletManagerClient : TabletManagerClient := 0

/-- wrangler.New(logger, ts, tmclient, lockTimeout): builds a fresh
wrangler storing its constructor arguments. -/
def wrangler.New (a : Nat) (logger : Logger) (ts : TopoServer)
    (tmc : TabletManagerClient) (lockTimeout : Duration) : Wrangler × Nat :=
  ({ id := a, logger := logger, ts := ts, tmc := tmc, lockTimeout := lockTimeout }, a + 1)

/-- The lock-protected execution state of vtworker (struct Instance), over
a worker type W and a job error type E. The currentWorkerMutex itself is
modelled by the event traces below, not as data. -/
structure Instance (W E : Type) where
  wr : Wrangler
  currentWorker : Option W
  currentMemoryLogger : Option Nat
  currentContext : Option Ctx
  currentCancelFunc : Option CancelFunc
  lastRunError : Option E
  topoServer : TopoServer
  cell : String
  lockTimeout : Duration
  commandDisplayInterval : Duration
deriving DecidableEq, Repr

/-- CreateWrangler: wrangler.New(logger, wi.topoServer,
tmclient.NewTabletManagerClient(), wi.lockTimeout). -/
def Instance.CreateWrangler {W E : Type} (wi : Instance W E) (logger : Logger)
    (a : Nat) : Wrangler × Nat :=
  wrangler.New a logger wi.topoServer tmclient.NewTabletManagerClient wi.lockTimeout

/-- NewInstance: the composite literal sets only topoServer, cell and
commandDisplayInterval; every other field, lockTimeout included, keeps its
Go zero value. Then wi.wr is set to CreateWrangler(NewConsoleLogger()). -/
def NewInstance (W E : Type) (ts : TopoServer) (cell : String)
    (lockTimeout commandDisplayInterval : Duration) (a : Nat) : Instance W E × Nat :=
  let wi0 : Instance W E :=
    { wr := { id := 0, logger := Logger.console 0, ts := 0, tmc := 0, lockTimeout := 0 }
      currentWorker := none
      currentMemoryLogger := none
      currentContext := none
      currentCancelFunc := none
      lastRunError := none
      topoServer := ts
      cell := cell
      lockTimeout := 0
      commandDisplayInterval := commandDisplayInterval }
  let consoleA := logutil.NewConsoleLogger a
  let wrA := wi0.CreateWrangler consoleA.1 consoleA.2
  ({ wi0 with wr := wrA.1 }, wrA.2)

/-- The error value fmt.Errorf builds in setAndStartWorker, carrying the
worker it formats. -/
inductive WorkerError (W : Type) where
  | alreadyInProgress (w : W)
deriving DecidableEq, Repr

/-- The goroutine spawned by setAndStartWorker: the admitted worker and
the done channel it will close. -/
structure SpawnedJob (W : Type) where
  wrk : W
  done : Nat
deriving DecidableEq, Repr

/-- Result of setAndStartWorker: the updated instance and caller wrangler,
the returned (chan, error) pair, the advanced allocation counter, and the
goroutine spawned (none when admission failed). -/
structure AdmitResult (W E : Type) where
  wi : Instance W E
  wr : Wrangler
  done : Option Nat
  err : Option (WorkerError W)
  alloc : Nat
  spawned : Option (SpawnedJob W)
deriving DecidableEq, Repr

/-- setAndStartWorker: under the mutex, fail if currentWorker is non-nil;
otherwise install the worker, a fresh memory logger, a cancellable context
derived from Background, clear lastRunError, make the done channel, install
a tee logger on wr (substituting a new console logger when wr is the
default wrangler, whose logger field is then shared through wi.wr), and
spawn the worker goroutine. -/
def setAndStartWorker {W E : Type} (wi : Instance W E) (wrk : W) (wr : Wrangler)
    (a : Nat) : AdmitResult W E :=
  match wi.currentWorker with
  | some w =>
    { wi := wi, wr := wr, done := none,
      err := some (WorkerError.alreadyInProgress w), alloc := a, spawned := none }
  | none =>
    let memA := logutil.NewMemoryLogger a
    let ctxA := context.WithCancel context.Background memA.2
    let doneId := ctxA.2
    let a2 := ctxA.2 + 1
    let loggerA : Logger × Nat :=
      if wr.id = wi.wr.id then logutil.NewConsoleLogger a2 else (wr.logger, a2)
    let wranglerLogger := loggerA.1
    let teed := logutil.NewTeeLogger (Logger.memory memA.1) wranglerLogger
    let wrSet : Wrangler := { wr with logger := teed }
    let wiNew : Instance W E :=
      { wi with
        currentWorker := some wrk
        currentMemoryLogger := some memA.1
        currentContext := some ctxA.1.1
        currentCancelFunc := some ctxA.1.2
        lastRunError := none
        wr := if wr.id = wi.wr.id then wrSet else wi.wr }
    { wi := wiNew, wr := wrSet, done := some doneId, err := none,
      alloc := loggerA.2, spawned := some { wrk := wrk, done := doneId } }

/-- The state mutation the worker goroutine performs once wrk.Run returns
err: clear currentContext and currentCancelFunc and store err verbatim in
lastRunError (under the mutex, before closing the done channel). -/
def completeWorker {W E : Type} (wi : Instance W E) (err : Option E) : Instance W E :=
  { wi with
    currentContext := none
    currentCancelFunc := none
    lastRunError := err }

/-- What the signal-handler goroutine does with the process after a
SIGTERM/SIGINT: either it invoked the stored cancel function (process keeps
running) or it called os.Exit with the given code. -/
inductive SignalAction where
  | cancelled (c : CancelFunc)
  | exited (code : Nat)
deriving DecidableEq, Repr

/-- Body of the goroutine installed by InstallSignalHandlers, run on
SIGTERM/SIGINT: under the mutex, if currentCancelFunc is non-nil call it,
else print and os.Exit(0). -/
def signalHandlerBody {W E : Type} (wi : Instance W E) : SignalAction :=
  match wi.currentCancelFunc with
  | some c => SignalAction.cancelled c
  | none => SignalAction.exited 0

/-- Atomic events of the worker goroutine spawned by setAndStartWorker, in
terms of the currentWorkerMutex and the lock-protected fields. -/
inductive Event (E : Type) where
  | lockAcquire
  | lockRelease
  | readCurrentContext
  | runWorker
  | writeCurrentContext (v : Option Ctx)
  | writeCurrentCancelFunc (v : Option CancelFunc)
  | writeLastRunError (v : Option E)
  | closeChan (c : Nat)
deriving DecidableEq, Repr

/-- Event is a close of a done channel. -/
def Event.isClose {E : Type} : Event E → Bool
  | Event.closeChan _ => true
  | _ => false

/-- Event is a write to one of the three fields the completion step
mutates. -/
def Event.isStateWrite {E : Type} : Event E → Bool
  | Event.writeCurrentContext _ => true
  | Event.writeCurrentCancelFunc _ => true
  | Event.writeLastRunError _ => true
  | _ => false

/-- Event is an acquisition of currentWorkerMutex. -/
def Event.isLockAcquire {E : Type} : Event E → Bool
  | Event.lockAcquire => true
  | _ => false

/-- Event is a release of currentWorkerMutex. -/
def Event.isLockRelease {E : Type} : Event E → Bool
  | Event.lockRelease => true
  | _ => false

/-- Event is a read or write of a currentWorkerMutex-protected field. -/
def Event.isFieldAccess {E : Type} : Event E → Bool
  | Event.readCurrentContext => true
  | Event.writeCurrentContext _ => true
  | Event.writeCurrentCancelFunc _ => true
  | Event.writeLastRunError _ => true
  | _ => false

/-- The event trace of the goroutine body in setAndStartWorker, when
wrk.Run returns err: it reads wi.currentContext (as the argument of
wrk.Run, before taking the mutex), runs the worker, then under the mutex
clears currentContext and currentCancelFunc and stores err, and finally
closes the done channel after releasing the mutex. -/
def workerGoroutineTrace {E : Type} (err : Option E) (done : Nat) : List (Event E) :=
  [ Event.readCurrentContext,
    Event.runWorker,
    Event.lockAcquire,
    Event.writeCurrentContext none,
    Event.writeCurrentCancelFunc none,
    Event.writeLastRunError err,
    Event.lockRelease,
    Event.closeChan done ]

/-- The trace of the goroutine recorded in an AdmitResult. -/
def SpawnedJob.trace {W E : Type} (sj : SpawnedJob W) (err : Option E) : List (Event E) :=
  workerGoroutineTrace err sj.done

/-- Number of mutex acquisitions minus releases among the first i events:
how many times the goroutine holds the lock when event i starts. -/
def locksHeldBefore {E : Type} (t : List (Event E)) (i : Nat) : Nat :=
  (t.take i).countP Event.isLockAcquire - (t.take i).countP Event.isLockRelease

/-- Every access to a lock-protected field in the trace happens while the
thread holds the mutex. -/
def accessesLocked {E : Type} (t : List (Event E)) : Prop :=
  ∀ i : Fin t.length, (t.get i).isFieldAccess = true → 0 < locksHeldBefore t i.val

instance {E : Type} [DecidableEq E] (t : List (Event E)) :
    Decidable (accessesLocked t) := by
  unfold accessesLocked; infer_instance

/-- The supervisor machine: the Instance fields, the allocation counter,
and whether a spawned worker goroutine has not yet completed. -/
structure Machine (W E : Type) where
  inst : Instance W E
  alloc : Nat
  pending : Bool
deriving DecidableEq, Repr

/-- The machine right after NewInstance: no goroutine pending. -/
def initMachine (W E : Type) (ts : TopoServer) (cell : String)
    (lockTimeout commandDisplayInterval : Duration) (a : Nat) : Machine W E :=
  let p := NewInstance W E ts cell lockTimeout commandDisplayInterval a
  { inst := p.1, alloc := p.2, pending := false }

/-- Machine step for a setAndStartWorker call: a goroutine becomes pending
exactly when one was spawned. -/
def Machine.admitWorker {W E : Type} (m : Machine W E) (wrk : W) (wr : Wrangler) : Machine W E :=
  let r := setAndStartWorker m.inst wrk wr m.alloc
  { inst := r.wi, alloc := r.alloc, pending := m.pending || r.spawned.isSome }

/-- Machine step for the pending goroutine finishing with error err. -/
def Machine.complete {W E : Type} (m : Machine W E) (err : Option E) : Machine W E :=
  { inst := completeWorker m.inst err, alloc := m.alloc, pending := false }

/-- Machine step for the signal handler: it either invokes the stored
cancel function or exits the process; it writes none of the protected
fields, so the machine state is unchanged. -/
def Machine.signal {W E : Type} (m : Machine W E) : Machine W E := m

/-- Machine states reachable through the operations of instance.go:
construction, admission, goroutine completion (only while one is pending),
and signal handling. -/
inductive Reachable {W E : Type} : Machine W E → Prop where
  | init (ts : TopoServer) (cell : String) (lt cdi : Duration) (a : Nat) :
      Reachable (initMachine W E ts cell lt cdi a)
  | admitWorker (m : Machine W E) (wrk : W) (wr : Wrangler) :
      Reachable m → Reachable (m.admitWorker wrk wr)
  | complete (m : Machine W E) (err : Option E) :
      Reachable m → m.pending = true → Reachable (m.complete err)
  | signal (m : Machine W E) : Reachable m → Reachable m.signal

/-- The three-state invariant of the struct comment, plus: the cancel
function is present exactly when the context is, and exactly when a
goroutine is executing. -/
def StateInv {W E : Type} (m : Machine W E) : Prop :=
  (m.inst.currentContext.isSome = m.inst.currentCancelFunc.isSome) ∧
  (m.pending = m.inst.currentContext.isSome) ∧
  ((m.inst.currentWorker = none ∧ m.inst.currentContext = none ∧
      m.inst.currentCancelFunc = none ∧ m.inst.lastRunError = none) ∨
   (m.inst.currentWorker.isSome = true ∧ m.inst.currentContext.isSome = true ∧
      m.inst.currentCancelFunc.isSome = true ∧ m.inst.lastRunError = none) ∨
   (m.inst.currentWorker.isSome = true ∧ m.inst.currentContext = none ∧
      m.inst.currentCancelFunc = none))

/-- A concrete freshly constructed instance (worker type Nat, job error
type String), used to evaluate the operations. -/
def exInit : Instance Nat String := (NewInstance Nat String 0 "" 5 7 0).1

/-- The allocation counter after building exInit. -/
def exInitAlloc : Nat := (NewInstance Nat String 0 "" 5 7 0).2

/-- Admitting worker 42 on exInit through its default wrangler. -/
def exAdmit : AdmitResult Nat String := setAndStartWorker exInit 42 exInit.wr exInitAlloc

/-- The instance while worker 42 is running. -/
def exRunning : Instance Nat String := exAdmit.wi

/-- The instance after worker 42 finished with a non-nil error. -/
def exCompleted : Instance Nat String := completeWorker exRunning (some "boom")

/-- C4: for every admitted job whose Run returns err (nil included), the
completion step stores err verbatim in lastRunError and clears
currentContext and currentCancelFunc; it is a total state update, so a
non-nil err is recorded rather than propagated, and the post-completion
state is always reached. -/
theorem claim4_complete_stores_error_verbatim {W E : Type} (wi : Instance W E)
    (err : Option E) :
    (completeWorker wi err).lastRunError = err ∧
    (completeWorker wi err).currentContext = none ∧
    (completeWorker wi err).currentCancelFunc = none :=
  ⟨rfl, rfl, rfl⟩

/-- C6: the completion step changes nothing besides currentContext,
currentCancelFunc and lastRunError: currentWorker, currentMemoryLogger,
the default wrangler and the configuration fields are exactly those set at
admission time. -/
theorem claim6_complete_frame {W E : Type} (wi : Instance W E) (err : Option E) :
    (completeWorker wi err).currentWorker = wi.currentWorker ∧
    (completeWorker wi err).currentMemoryLogger = wi.currentMemoryLogger ∧
    (completeWorker wi err).wr = wi.wr ∧
    (completeWorker wi err).topoServer = wi.topoServer ∧
    (completeWorker wi err).cell = wi.cell ∧
    (completeWorker wi err).lockTimeout = wi.lockTimeout ∧
    (completeWorker wi err).commandDisplayInterval = wi.commandDisplayInterval :=
  ⟨rfl, rfl, rfl, rfl, rfl, rfl, rfl⟩

/-- C8: the signal-handler goroutine, on a termination signal, invokes the
stored cancel function when one is present (and does not exit the
process), and otherwise exits the process with code 0. -/
theorem claim8_signal_handler {W E : Type} (wi : Instance W E) :
    (∀ c : CancelFunc, wi.currentCancelFunc = some c →
      signalHandlerBody wi = SignalAction.cancelled c ∧
      ∀ code : Nat, signalHandlerBody wi ≠ SignalAction.exited code) ∧
    (wi.currentCancelFunc = none → signalHandlerBody wi = SignalAction.exited 0) := by
  constructor
  · intro c hc
    constructor
    · simp [signalHandlerBody, hc]
    · intro code
      simp [signalHandlerBody, hc]
  · intro hc
    simp [signalHandlerBody, hc]

/-- Witness for C8, on the concrete running and idle instances. -/
theorem claim8_signal_handler_witness :
    signalHandlerBody exRunning = SignalAction.cancelled 3 ∧
    signalHandlerBody exInit = SignalAction.exited 0 :=
  ⟨((claim8_signal_handler exRunning).1 3 rfl).1, (claim8_signal_handler exInit).2 rfl⟩

/-- C9: the worker goroutine accesses a currentWorkerMutex-protected field
outside the mutex: its very first event is the read of wi.currentContext
(the argument of wrk.Run), performed with zero locks held, so not every
access to the protected fields happens under the mutex. -/
theorem claim9_goroutine_context_read_unlocked :
    ¬ accessesLocked (workerGoroutineTrace (E := String) none 0) ∧
    (workerGoroutineTrace (E := String) none 0).head? = some Event.readCurrentContext ∧
    locksHeldBefore (workerGoroutineTrace (E := String) none 0) 0 = 0 := by decide

/-- C10: NewInstance never stores its lockTimeout argument (the composite
literal omits the field, leaving the zero value), so the instance's
lockTimeout is 0 for every argument, and every wrangler built through
CreateWrangler on such an instance is constructed with lock timeout 0. -/
theorem claim10_lock_timeout_ignored (W E : Type) (ts : TopoServer) (cell : String)
    (lt cdi : Duration) (a : Nat) (logger : Logger) (b : Nat) :
    (NewInstance W E ts cell lt cdi a).1.lockTimeout = 0 ∧
    ((NewInstance W E ts cell lt cdi a).1.CreateWrangler logger b).1.lockTimeout = 0 :=
  ⟨rfl, rfl⟩

/-- C1 counterexample: in the Completed state exCompleted (currentWorker
set, currentContext and currentCancelFunc nil, lastRunError set — so not
Running), setAndStartWorker still fails with the AlreadyRunning error, so
admission failure is not equivalent to being in the Running state and an
Admit issued in the Completed state does not succeed. -/
theorem claim1_counterexample :
    (setAndStartWorker exCompleted 7 exCompleted.wr 6).err.isSome = true ∧
    (setAndStartWorker exCompleted 7 exCompleted.wr 6).done = none ∧
    exCompleted.currentWorker.isSome = true ∧
    exCompleted.currentContext = none ∧
    exCompleted.currentCancelFunc = none ∧
    exCompleted.lastRunError.isSome = true := by decide

/-- C1 amended: setAndStartWorker fails with the AlreadyRunning error
exactly when currentWorker is non-nil — i.e. in the Running and in the
Completed state — and succeeds only from Idle; on failure it returns no
completion channel, leaves the instance and the caller wrangler untouched
and spawns no goroutine. -/
theorem claim1_admission_fails_iff_worker_present {W E : Type} (wi : Instance W E)
    (wrk : W) (wr : Wrangler) (a : Nat) :
    ((setAndStartWorker wi wrk wr a).err.isSome = wi.currentWorker.isSome) ∧
    ((setAndStartWorker wi wrk wr a).err.isSome = true →
      (setAndStartWorker wi wrk wr a).done = none ∧
      (setAndStartWorker wi wrk wr a).wi = wi ∧
      (setAndStartWorker wi wrk wr a).wr = wr ∧
      (setAndStartWorker wi wrk wr a).alloc = a ∧
      (setAndStartWorker wi wrk wr a).spawned = none) := by
  cases hw : wi.currentWorker with
  | some w => simp [setAndStartWorker, hw]
  | none => simp [setAndStartWorker, hw]

/-- Witness for the amended C1, at the concrete Completed state. -/
theorem claim1_amended_witness :
    (setAndStartWorker exCompleted 7 exCompleted.wr 6).done = none ∧
    (setAndStartWorker exCompleted 7 exCompleted.wr 6).wi = exCompleted ∧
    (setAndStartWorker exCompleted 7 exCompleted.wr 6).wr = exCompleted.wr ∧
    (setAndStartWorker exCompleted 7 exCompleted.wr 6).alloc = 6 ∧
    (setAndStartWorker exCompleted 7 exCompleted.wr 6).spawned = none :=
  (claim1_admission_fails_iff_worker_present exCompleted 7 exCompleted.wr 6).2 (by decide)

/-- C3: admitting wrk while no worker is current installs exactly the
claimed post-state: currentWorker = wrk; a freshly allocated memory logger
(distinct from any logger the instance held before, given that all earlier
allocations lie below the counter); a cancellable context freshly derived
from the background context together with its cancel function; a cleared
lastRunError; and the call returns a non-nil completion channel and a nil
error. -/
theorem claim3_admission_post_state {W E : Type} (wi : Instance W E) (wrk : W)
    (wr : Wrangler) (a : Nat) (hw : wi.currentWorker = none)
    (hfresh : ∀ i : Nat, wi.currentMemoryLogger = some i → i < a) :
    (setAndStartWorker wi wrk wr a).wi.currentWorker = some wrk ∧
    (setAndStartWorker wi wrk wr a).wi.currentMemoryLogger = some a ∧
    (setAndStartWorker wi wrk wr a).wi.currentMemoryLogger ≠ wi.currentMemoryLogger ∧
    (setAndStartWorker wi wrk wr a).wi.currentContext =
      some (Ctx.withCancel context.Background (a + 1)) ∧
    (setAndStartWorker wi wrk wr a).wi.currentCancelFunc = some (a + 1) ∧
    (setAndStartWorker wi wrk wr a).wi.lastRunError = none ∧
    (setAndStartWorker wi wrk wr a).done = some (a + 2) ∧
    (setAndStartWorker wi wrk wr a).err = none := by
  refine ⟨?_, ?_, ?_, ?_, ?_, ?_, ?_, ?_⟩ <;>
    simp [setAndStartWorker, hw, logutil.NewMemoryLogger, context.WithCancel,
      context.Background, logutil.NewConsoleLogger]
  cases hm : wi.currentMemoryLogger with
  | none => simp
  | some i => have hlt := hfresh i hm; simp; omega

/-- Witness for C3, admitting worker 42 on the fresh instance exInit. -/
theorem claim3_admission_post_state_witness :
    (setAndStartWorker exInit 42 exInit.wr 2).wi.currentWorker = some 42 ∧
    (setAndStartWorker exInit 42 exInit.wr 2).wi.currentMemoryLogger = some 2 ∧
    (setAndStartWorker exInit 42 exInit.wr 2).wi.currentMemoryLogger ≠
      exInit.currentMemoryLogger ∧
    (setAndStartWorker exInit 42 exInit.wr 2).wi.currentContext =
      some (Ctx.withCancel context.Background 3) ∧
    (setAndStartWorker exInit 42 exInit.wr 2).wi.currentCancelFunc = some 3 ∧
    (setAndStartWorker exInit 42 exInit.wr 2).wi.lastRunError = none ∧
    (setAndStartWorker exInit 42 exInit.wr 2).done = some 4 ∧
    (setAndStartWorker exInit 42 exInit.wr 2).err = none :=
  claim3_admission_post_state exInit 42 exInit.wr 2 rfl
    (fun i h => by rw [show exInit.currentMemoryLogger = none from rfl] at h; cases h)

/-- C5: a successful admission spawns a goroutine whose done channel is
exactly the returned completion channel; in the goroutine's trace, for any
error the worker returns, the done channel is closed exactly once, the
close is the very last event, and the prefix before the first close
already contains every state write — the clearing of currentContext and
currentCancelFunc and the storing of the error — so the close happens
strictly after lastRunError is written and the cancel handle is cleared,
and any observer of the closed channel sees the settled Completed state. -/
theorem claim5_close_once_after_settle {W E : Type} (wi : Instance W E) (wrk : W)
    (wr : Wrangler) (a : Nat) (hw : wi.currentWorker = none) (err : Option E)
    (done : Nat) :
    ((setAndStartWorker wi wrk wr a).spawned = some { wrk := wrk, done := a + 2 } ∧
     (setAndStartWorker wi wrk wr a).done = some (a + 2)) ∧
    (workerGoroutineTrace err done).countP Event.isClose = 1 ∧
    (workerGoroutineTrace err done).getLast? = some (Event.closeChan done) ∧
    Event.writeLastRunError err ∈ workerGoroutineTrace err done ∧
    Event.writeCurrentContext none ∈ workerGoroutineTrace err done ∧
    Event.writeCurrentCancelFunc (E := E) none ∈ workerGoroutineTrace err done ∧
    ((workerGoroutineTrace err done).takeWhile (fun e => ! Event.isClose e)).countP
        Event.isStateWrite =
      (workerGoroutineTrace err done).countP Event.isStateWrite := by
  refine ⟨⟨?_, ?_⟩, ?_, ?_, ?_, ?_, ?_, ?_⟩ <;>
    simp [setAndStartWorker, hw, workerGoroutineTrace, logutil.NewMemoryLogger,
      context.WithCancel, Event.isClose, Event.isStateWrite, List.countP_cons]

/-- Witness for C5, on the fresh instance exInit with a nil run error. -/
theorem claim5_close_once_after_settle_witness :
    (setAndStartWorker exInit 42 exInit.wr 2).done = some 4 ∧
    (workerGoroutineTrace (E := String) none 4).countP Event.isClose = 1 ∧
    (workerGoroutineTrace (E := String) none 4).getLast? =
      some (Event.closeChan 4) :=
  ⟨(claim5_close_once_after_settle exInit 42 exInit.wr 2 rfl (E := String) none 4).1.2,
   (claim5_close_once_after_settle exInit 42 exInit.wr 2 rfl (E := String) none 4).2.1,
   (claim5_close_once_after_settle exInit 42 exInit.wr 2 rfl (E := String) none 4).2.2.1⟩

/-- C7: a successful admission installs on the caller's wrangler a tee of
the freshly created memory logger and the wrangler's existing logger,
except when the caller passes the supervisor's default wrangler, in which
case a newly created console logger replaces the default wrangler's
current logger in the second branch. -/
theorem claim7_tee_logger_installed {W E : Type} (wi : Instance W E) (wrk : W)
    (wr : Wrangler) (a : Nat) (hw : wi.currentWorker = none) :
    (setAndStartWorker wi wrk wr a).wi.currentMemoryLogger = some a ∧
    (wr.id ≠ wi.wr.id →
      (setAndStartWorker wi wrk wr a).wr.logger =
        logutil.NewTeeLogger (Logger.memory a) wr.logger) ∧
    (wr.id = wi.wr.id →
      (setAndStartWorker wi wrk wr a).wr.logger =
        logutil.NewTeeLogger (Logger.memory a) (Logger.console (a + 3))) := by
  refine ⟨?_, ?_, ?_⟩ <;>
    simp [setAndStartWorker, hw, logutil.NewMemoryLogger, context.WithCancel,
      logutil.NewConsoleLogger, logutil.NewTeeLogger] <;>
    intro h <;> simp [h]

/-- Witness for C7: the default-wrangler branch on exInit, and the
custom-wrangler branch with a wrangler whose id differs from the
default's. -/
theorem claim7_tee_logger_installed_witness :
    (setAndStartWorker exInit 42 exInit.wr 2).wr.logger =
      logutil.NewTeeLogger (Logger.memory 2) (Logger.console 5) ∧
    (setAndStartWorker exInit 42
        { id := 99, logger := Logger.custom 33, ts := 0, tmc := 0, lockTimeout := 0 }
        2).wr.logger =
      logutil.NewTeeLogger (Logger.memory 2) (Logger.custom 33) :=
  ⟨(claim7_tee_logger_installed exInit 42 exInit.wr 2 rfl).2.2 rfl,
   (claim7_tee_logger_installed exInit 42
      { id := 99, logger := Logger.custom 33, ts := 0, tmc := 0, lockTimeout := 0 }
      2 rfl).2.1 (by decide)⟩

/-- The freshly constructed machine satisfies the three-state invariant. -/
theorem stateInv_init {W E : Type} (ts : TopoServer) (cell : String)
    (lt cdi : Duration) (a : Nat) : StateInv (initMachine W E ts cell lt cdi a) :=
  ⟨rfl, rfl, Or.inl ⟨rfl, rfl, rfl, rfl⟩⟩

/-- An admission step preserves the three-state invariant. -/
theorem stateInv_admission {W E : Type} (m : Machine W E) (wrk : W) (wr : Wrangler)
    (h : StateInv m) : StateInv (m.admitWorker wrk wr) := by
  obtain ⟨h1, h2, h3⟩ := h
  cases hw : m.inst.currentWorker with
  | some w =>
    have heq : m.admitWorker wrk wr = m := by
      simp [Machine.admitWorker, setAndStartWorker, hw]
    rw [heq]
    exact ⟨h1, h2, h3⟩
  | none =>
    simp [StateInv, Machine.admitWorker, setAndStartWorker, hw, logutil.NewMemoryLogger,
      context.WithCancel, logutil.NewConsoleLogger]

/-- A completion step from a state with a pending goroutine preserves the
three-state invariant, ending in the Completed shape. -/
theorem stateInv_complete {W E : Type} (m : Machine W E) (err : Option E)
    (h : StateInv m) (hp : m.pending = true) : StateInv (m.complete err) := by
  obtain ⟨h1, h2, h3⟩ := h
  have hctx : m.inst.currentContext.isSome = true := by rw [← h2, hp]
  have hwrk : m.inst.currentWorker.isSome = true := by
    rcases h3 with ⟨_, hc, _, _⟩ | ⟨hws, _, _, _⟩ | ⟨hws, _, _⟩
    · rw [hc] at hctx; cases hctx
    · exact hws
    · exact hws
  exact ⟨rfl, rfl, Or.inr (Or.inr ⟨hwrk, rfl, rfl⟩)⟩

/-- C2: every machine state reachable through construction, admission,
completion and signal handling satisfies the three-state invariant — Idle
(everything nil), Running (worker, context and cancel function set, no
last error), or Completed (worker set, context and cancel function nil) —
with the cancel function present exactly when the context is, which is
exactly when a goroutine is executing; moreover an admission can only
succeed from the Idle state. -/
theorem claim2_reachable_state_invariant {W E : Type} (m : Machine W E)
    (h : Reachable m) :
    StateInv m ∧
    ∀ (wrk : W) (wr : Wrangler),
      (setAndStartWorker m.inst wrk wr m.alloc).err = none →
        m.inst.currentWorker = none ∧ m.inst.currentContext = none ∧
        m.inst.currentCancelFunc = none ∧ m.inst.lastRunError = none := by
  have hinv : StateInv m := by
    induction h with
    | init ts cell lt cdi a => exact stateInv_init ts cell lt cdi a
    | admitWorker m wrk wr _ ih => exact stateInv_admission m wrk wr ih
    | complete m err _ hp ih => exact stateInv_complete m err ih hp
    | signal m _ ih => exact ih
  refine ⟨hinv, ?_⟩
  intro wrk wr herr
  have hw : m.inst.currentWorker = none := by
    cases hww : m.inst.currentWorker with
    | none => rfl
    | some w => simp [setAndStartWorker, hww] at herr
  obtain ⟨h1, h2, h3⟩ := hinv
  rcases h3 with ⟨_, hc, hf, hl⟩ | ⟨hws, _, _, _⟩ | ⟨hws, _, _⟩
  · exact ⟨hw, hc, hf, hl⟩
  · rw [hw] at hws; cases hws
  · rw [hw] at hws; cases hws

/-- Witness for C2, at the concrete freshly constructed machine. -/
theorem claim2_reachable_state_invariant_witness :
    StateInv (initMachine Nat String 0 "" 5 7 0) :=
  (claim2_reachable_state_invariant (initMachine Nat String 0 "" 5 7 0)
    (Reachable.init 0 "" 5 7 0)).1

end VtWorker
